import Mathlib

/-!
# Verification of the QtAV `VideoRenderer` geometry and property-pipeline core

The repository ships the public contract `src/src/QtAV/VideoRenderer.h`: the
declarations and documentation of the renderer's geometry engine (aspect-ratio
resolution, region-of-interest resolution, coordinate mapping) and of its
property pipeline (setter → virtual `onSetXXX` hook → conditional commit).
The member-function bodies live outside the provided sources, so each
computational definition below is modelled from the specification's algorithm
text (`spec.md` §3–§4) and from the doc comments inside the header itself;
every such definition carries a doc comment saying what it models.

Real-number quantities (`qreal`) are modelled as exact rationals `ℚ`, so
"within floating tolerance" statements become exact equalities.
-/

namespace QtAVVR

/-- A 2-D point with rational coordinates, modelling Qt's `QPointF`. -/
structure QPointF where
  x : ℚ
  y : ℚ
  deriving DecidableEq, Repr

/-- A rectangle given by origin and extent, modelling Qt's `QRectF`
(and, in exact arithmetic, the resolved `QRect` results). -/
structure QRectF where
  x : ℚ
  y : ℚ
  w : ℚ
  h : ℚ
  deriving DecidableEq, Repr

/-- An integer size, modelling Qt's `QSize` (frame and surface sizes). -/
structure QSize where
  w : Int
  h : Int
  deriving DecidableEq, Repr

/-- `VideoRenderer::OutAspectRatioMode` (VideoRenderer.h lines 56–61).
The source spells the third constructor `CustomAspectRation`. -/
inductive OutAspectRatioMode where
  | RendererAspectRatio
  | VideoAspectRatio
  | CustomAspectRation
  deriving DecidableEq, Repr

/-- `VideoRenderer::Quality` (VideoRenderer.h lines 62–66). -/
inductive Quality where
  | QualityDefault
  | QualityBest
  | QualityFastest
  deriving DecidableEq, Repr

/-- Modelled from the spec: `VideoFormat::PixelFormat` is declared in the
missing header `VideoFormat.h`; the spec treats it as an opaque pixel-format
tag, so a small representative enumeration suffices. -/
inductive PixelFormat where
  | Format_Invalid
  | Format_RGB32
  | Format_YUV420P
  deriving DecidableEq, Repr

/-- Modelled from the spec: `GeometryState` (spec §3), the state held by
`VideoRendererPrivate`, whose definition is outside the provided sources.
Fields follow spec §3's data model: frame size, surface size, orientation,
aspect-ratio mode, custom ratio, source aspect ratio, raw ROI request,
quality hint, pixel-format policy and the four color properties. -/
structure GeometryState where
  inSize : QSize
  outSize : QSize
  orientation : Int
  aspectRatioMode : OutAspectRatioMode
  customRatio : ℚ
  sourceAspectRatio : ℚ
  roiRequest : QRectF
  quality : Quality
  preferredPixelFormat : PixelFormat
  forcePreferredFormat : Bool
  brightness : ℚ
  contrast : ℚ
  hue : ℚ
  saturation : ℚ
  deriving DecidableEq, Repr

/-- The virtual `onSetXXX` backend hooks of `VideoRenderer`
(VideoRenderer.h lines 204–227), gathered as a record: a concrete backend
subclass overrides these, and each public setter consults them. -/
structure Backend where
  onSetPreferredPixelFormat : PixelFormat → Bool
  onSetQuality : Quality → Bool
  onSetOrientation : Int → Bool
  onSetRegionOfInterest : QRectF → Bool
  onSetBrightness : ℚ → Bool
  onSetContrast : ℚ → Bool
  onSetHue : ℚ → Bool
  onSetSaturation : ℚ → Bool

/-- The base-class default hooks. The color hooks return `false`: the header
documents "false: It's default. means not implemented" (VideoRenderer.h
lines 217–223). `onSetPreferredPixelFormat` returns `true`: the header
documents "return false if value not changed. default is true"
(VideoRenderer.h lines 204–206). The quality/orientation/ROI defaults are
modelled from the spec ("a generic default hook always returns false",
spec §4.4), the header documenting no default for them. -/
def defaultBackend : Backend where
  onSetPreferredPixelFormat := fun _ => true
  onSetQuality := fun _ => false
  onSetOrientation := fun _ => false
  onSetRegionOfInterest := fun _ => false
  onSetBrightness := fun _ => false
  onSetContrast := fun _ => false
  onSetHue := fun _ => false
  onSetSaturation := fun _ => false

/-- Modelled from the spec: `VideoRenderer::setBrightness` (declared
VideoRenderer.h line 179, body missing). Spec §4.4: invoke the hook; on
`true` commit the value and report success, otherwise leave the stored
value unchanged and report failure. -/
def setBrightness (b : Backend) (s : GeometryState) (v : ℚ) :
    GeometryState × Bool :=
  if b.onSetBrightness v then ({ s with brightness := v }, true)
  else (s, false)

/-- Modelled from the spec: `VideoRenderer::setContrast`
(VideoRenderer.h line 181, body missing); same conditional commit. -/
def setContrast (b : Backend) (s : GeometryState) (v : ℚ) :
    GeometryState × Bool :=
  if b.onSetContrast v then ({ s with contrast := v }, true)
  else (s, false)

/-- Modelled from the spec: `VideoRenderer::setHue`
(VideoRenderer.h line 183, body missing); same conditional commit. -/
def setHue (b : Backend) (s : GeometryState) (v : ℚ) :
    GeometryState × Bool :=
  if b.onSetHue v then ({ s with hue := v }, true)
  else (s, false)

/-- Modelled from the spec: `VideoRenderer::setSaturation`
(VideoRenderer.h line 185, body missing); same conditional commit. -/
def setSaturation (b : Backend) (s : GeometryState) (v : ℚ) :
    GeometryState × Bool :=
  if b.onSetSaturation v then ({ s with saturation := v }, true)
  else (s, false)

/-- Modelled from the spec: `VideoRenderer::setPreferredPixelFormat`
(VideoRenderer.h line 79, body missing). Spec §4.4: "follows the same
protocol via `onSetPreferredPixelFormat`". -/
def setPreferredPixelFormat (b : Backend) (s : GeometryState)
    (f : PixelFormat) : GeometryState × Bool :=
  if b.onSetPreferredPixelFormat f then
    ({ s with preferredPixelFormat := f }, true)
  else (s, false)

/-- Modelled from the spec: `VideoRenderer::setQuality`
(VideoRenderer.h line 107, body missing), declared `void` in the header;
the state change is committed only when `onSetQuality` accepts. -/
def setQuality (b : Backend) (s : GeometryState) (q : Quality) :
    GeometryState :=
  if b.onSetQuality q then { s with quality := q } else s

/-- Modelled from the spec: `VideoRenderer::setOrientation`
(VideoRenderer.h line 124, body missing), declared `void`. The header doc
(line 120) says "0, 90, 180, 270. other values are ignored"; a valid value
is committed only when `onSetOrientation` accepts. -/
def setOrientation (b : Backend) (s : GeometryState) (v : Int) :
    GeometryState :=
  if v = 0 ∨ v = 90 ∨ v = 180 ∨ v = 270 then
    if b.onSetOrientation v then { s with orientation := v } else s
  else s

/-- Modelled from the spec: `VideoRenderer::setRegionOfInterest`
(VideoRenderer.h lines 140–141, body missing), declared `void`. The raw
request rect is stored verbatim when `onSetRegionOfInterest` accepts
(spec §3: "roiRequest is stored verbatim (not resolved)"). -/
def setRegionOfInterest (b : Backend) (s : GeometryState) (r : QRectF) :
    GeometryState :=
  if b.onSetRegionOfInterest r then { s with roiRequest := r } else s

/-- The C++ return type a setter is declared with in VideoRenderer.h. -/
inductive CppRetTy where
  | voidTy
  | boolTy
  deriving DecidableEq, Repr

/-- Declared return type of `setQuality` (VideoRenderer.h line 107:
`void setQuality(Quality q);`). -/
def setQuality_declRet : CppRetTy := CppRetTy.voidTy

/-- Declared return type of `setOrientation` (VideoRenderer.h line 124:
`void setOrientation(int value);`). -/
def setOrientation_declRet : CppRetTy := CppRetTy.voidTy

/-- Declared return type of both `setRegionOfInterest` overloads
(VideoRenderer.h lines 140–141: `void setRegionOfInterest(...)`). -/
def setRegionOfInterest_declRet : CppRetTy := CppRetTy.voidTy

/-- Declared return type of `setBrightness` (VideoRenderer.h line 179:
`bool setBrightness(qreal brightness);`). -/
def setBrightness_declRet : CppRetTy := CppRetTy.boolTy

/-! ## Region-of-interest engine

`realROI` resolves the raw `roiRequest` against the current frame size.
The rules come from spec §4.2 and from the ROI doc comment in
VideoRenderer.h lines 128–137, which states the boundary rule
"|width| == 1 or |height| == 1 is a normalized value iff x or y is
normalized". -/

/-- Modelled from the spec: the resolved x offset of the ROI
(spec §4.2 rule 2): a component with absolute value below 1 is a fraction
of the frame width, otherwise an absolute pixel value. -/
def roiXAbs (W : ℚ) (r : QRectF) : ℚ :=
  if |r.x| < 1 then r.x * W else r.x

/-- Modelled from the spec: the resolved y offset of the ROI
(spec §4.2 rule 2), scaling by the frame height. -/
def roiYAbs (H : ℚ) (r : QRectF) : ℚ :=
  if |r.y| < 1 then r.y * H else r.y

/-- Modelled from the spec and the header's ROI doc: the resolved width.
Below absolute value 1 it is a fraction of the frame width; at absolute
value exactly 1 it is a fraction iff the x component is itself normalized
(VideoRenderer.h line 134); otherwise it is absolute pixels. -/
def roiWAbs (W : ℚ) (r : QRectF) : ℚ :=
  if |r.w| < 1 ∨ (|r.w| = 1 ∧ |r.x| < 1) then r.w * W else r.w

/-- Modelled from the spec and the header's ROI doc: the resolved height,
with the boundary rule tied to the y component. -/
def roiHAbs (H : ℚ) (r : QRectF) : ℚ :=
  if |r.h| < 1 ∨ (|r.h| = 1 ∧ |r.y| < 1) then r.h * H else r.h

/-- Modelled from the spec: a zero resolved width means "remainder of the
frame from the x offset" (spec §4.2 rule 3; header example
"(20, 30, 0, 0) equals (20, 30, sourceWidth - 20, sourceHeight - 30)"). -/
def roiWFull (W : ℚ) (r : QRectF) : ℚ :=
  if roiWAbs W r = 0 then W - roiXAbs W r else roiWAbs W r

/-- Modelled from the spec: a zero resolved height means the remainder of
the frame below the y offset (spec §4.2 rule 3). -/
def roiHFull (H : ℚ) (r : QRectF) : ℚ :=
  if roiHAbs H r = 0 then H - roiYAbs H r else roiHAbs H r

/-- Clamp a coordinate into the interval `[0, M]` (spec §4.2 rule 4). -/
def clampTo (M v : ℚ) : ℚ := max 0 (min v M)

/-- Modelled from the spec: resolution of a raw ROI request against frame
dimensions `W × H` (spec §4.2 rules 1–4). An all-zero request means the
whole frame; otherwise each component is resolved, zero extents become
remainders and the result is clipped to `[0,W] × [0,H]`. -/
def resolveROI (W H : ℚ) (r : QRectF) : QRectF :=
  if r.x = 0 ∧ r.y = 0 ∧ r.w = 0 ∧ r.h = 0 then ⟨0, 0, W, H⟩
  else
    let x0 := clampTo W (roiXAbs W r)
    let y0 := clampTo H (roiYAbs H r)
    let x1 := clampTo W (roiXAbs W r + roiWFull W r)
    let y1 := clampTo H (roiYAbs H r + roiHFull H r)
    ⟨x0, y0, x1 - x0, y1 - y0⟩

/-- The whole-frame rectangle `(0, 0, inSize.w, inSize.h)`. -/
def fullFrameRect (s : GeometryState) : QRectF :=
  ⟨0, 0, (s.inSize.w : ℚ), (s.inSize.h : ℚ)⟩

/-- Modelled from the spec: `VideoRenderer::realROI`
(VideoRenderer.h line 143, body missing). With a degenerate frame size the
computation degenerates to the identity, the whole-frame rectangle
(spec §3 invariants, §7); otherwise the raw request is resolved lazily
against the current frame size. -/
def realROI (s : GeometryState) : QRectF :=
  if s.inSize.w ≤ 0 ∨ s.inSize.h ≤ 0 then fullFrameRect s
  else resolveROI (s.inSize.w : ℚ) (s.inSize.h : ℚ) s.roiRequest

/-- Modelled from the spec: normalization of a resolved pixel rect, each
component divided by the matching frame dimension (spec §4.2 rule 5). -/
def normalizedROIOf (W H : ℚ) (R : QRectF) : QRectF :=
  ⟨R.x / W, R.y / H, R.w / W, R.h / H⟩

/-- Modelled from the spec: `VideoRenderer::normalizedROI`
(VideoRenderer.h line 145, body missing): the resolved ROI divided
componentwise by the frame dimensions. -/
def normalizedROI (s : GeometryState) : QRectF :=
  normalizedROIOf (s.inSize.w : ℚ) (s.inSize.h : ℚ) (realROI s)

/-! ## Aspect-ratio resolver -/

/-- The full surface rectangle `(0, 0, outSize.w, outSize.h)`. -/
def surfaceRect (s : GeometryState) : QRectF :=
  ⟨0, 0, (s.outSize.w : ℚ), (s.outSize.h : ℚ)⟩

/-- Modelled from the spec: the nominal target aspect ratio for the active
mode (spec §4.1): the frame's source aspect ratio in `VideoAspectRatio`
mode, the custom ratio in `CustomAspectRation` mode, and the renderer's
own ratio in `RendererAspectRatio` mode. -/
def nominalRatio (s : GeometryState) : ℚ :=
  match s.aspectRatioMode with
  | OutAspectRatioMode.RendererAspectRatio =>
      if (s.outSize.h : ℚ) = 0 then 0 else (s.outSize.w : ℚ) / (s.outSize.h : ℚ)
  | OutAspectRatioMode.VideoAspectRatio => s.sourceAspectRatio
  | OutAspectRatioMode.CustomAspectRation => s.customRatio

/-- Modelled from the spec: the effective fitting ratio; orientations 90
and 270 use the reciprocal of the nominal ratio because content is rotated
relative to the surface (spec §4.1). -/
def effectiveRatio (s : GeometryState) : ℚ :=
  if s.orientation = 90 ∨ s.orientation = 270 then 1 / nominalRatio s
  else nominalRatio s

/-- Modelled from the spec: the largest rectangle of aspect ratio `r`
(width = `r` × height) fitting inside a `W × H` surface, centered
(letterbox/pillarbox, spec §4.1). -/
def fitRect (W H r : ℚ) : QRectF :=
  if r * H ≤ W then ⟨(W - r * H) / 2, 0, r * H, H⟩
  else ⟨0, (H - W / r) / 2, W, W / r⟩

/-- Modelled from the spec: `VideoRenderer::videoRect`
(VideoRenderer.h line 127, body missing). `RendererAspectRatio` mode and
every degenerate case (zero surface dimension, non-positive ratio) yield
the full surface rectangle; the other modes letterbox the effective ratio
into the surface (spec §4.1). -/
def videoRect (s : GeometryState) : QRectF :=
  if s.outSize.w ≤ 0 ∨ s.outSize.h ≤ 0 then surfaceRect s
  else
    match s.aspectRatioMode with
    | OutAspectRatioMode.RendererAspectRatio => surfaceRect s
    | _ =>
        if effectiveRatio s ≤ 0 then surfaceRect s
        else fitRect (s.outSize.w : ℚ) (s.outSize.h : ℚ) (effectiveRatio s)

/-! ## Coordinate mapper -/

/-- The center of the current frame, about which orientation rotates. -/
def frameCenter (s : GeometryState) : QPointF :=
  ⟨(s.inSize.w : ℚ) / 2, (s.inSize.h : ℚ) / 2⟩

/-- Rotation of a point about center `c` by `-o` degrees, for
`o ∈ {90, 180, 270}`; any other value is the identity. -/
def rotNeg (o : Int) (c p : QPointF) : QPointF :=
  if o = 90 then ⟨c.x + (p.y - c.y), c.y - (p.x - c.x)⟩
  else if o = 180 then ⟨2 * c.x - p.x, 2 * c.y - p.y⟩
  else if o = 270 then ⟨c.x - (p.y - c.y), c.y + (p.x - c.x)⟩
  else p

/-- Rotation of a point about center `c` by `+o` degrees, the inverse of
`rotNeg o c`. -/
def rotPos (o : Int) (c p : QPointF) : QPointF :=
  if o = 90 then ⟨c.x - (p.y - c.y), c.y + (p.x - c.x)⟩
  else if o = 180 then ⟨2 * c.x - p.x, 2 * c.y - p.y⟩
  else if o = 270 then ⟨c.x + (p.y - c.y), c.y - (p.x - c.x)⟩
  else p

/-- Modelled from the spec: `VideoRenderer::mapToFrame`
(VideoRenderer.h line 152, body missing). Spec §4.3: normalize the surface
point against the display rectangle, scale into the resolved ROI
rectangle, then apply the inverse orientation rotation about the frame
center. No clipping is performed. -/
def mapToFrame (s : GeometryState) (p : QPointF) : QPointF :=
  let d := videoRect s
  let roi := realROI s
  let tx := (p.x - d.x) / d.w
  let ty := (p.y - d.y) / d.h
  rotNeg s.orientation (frameCenter s)
    ⟨roi.x + tx * roi.w, roi.y + ty * roi.h⟩

/-- Modelled from the spec: `VideoRenderer::mapFromFrame`
(VideoRenderer.h line 157, body missing): the inverse composition of
`mapToFrame` (spec §4.3). -/
def mapFromFrame (s : GeometryState) (q : QPointF) : QPointF :=
  let d := videoRect s
  let roi := realROI s
  let q2 := rotPos s.orientation (frameCenter s) q
  let tx := (q2.x - roi.x) / roi.w
  let ty := (q2.y - roi.y) / roi.h
  ⟨d.x + tx * d.w, d.y + ty * d.h⟩

/-- `p` lies inside rectangle `d` (inclusive bounds). -/
def insideRect (p : QPointF) (d : QRectF) : Prop :=
  d.x ≤ p.x ∧ p.x ≤ d.x + d.w ∧ d.y ≤ p.y ∧ p.y ≤ d.y + d.h

/-- Rectangle `a` is contained in rectangle `b` (with nonnegative extent). -/
def rectInside (a b : QRectF) : Prop :=
  0 ≤ a.w ∧ 0 ≤ a.h ∧ b.x ≤ a.x ∧ b.y ≤ a.y ∧
  a.x + a.w ≤ b.x + b.w ∧ a.y + a.h ≤ b.y + b.h

/-- Rectangle `a` is centered in rectangle `b`. -/
def centeredIn (a b : QRectF) : Prop :=
  a.x = b.x + (b.w - a.w) / 2 ∧ a.y = b.y + (b.h - a.h) / 2

/-! ## Concrete states and backends used to instantiate the theorems -/

/-- The renderer state right after construction: no frame yet, no surface,
default property values (spec §3). -/
def blankState : GeometryState where
  inSize := ⟨0, 0⟩
  outSize := ⟨0, 0⟩
  orientation := 0
  aspectRatioMode := OutAspectRatioMode.VideoAspectRatio
  customRatio := 0
  sourceAspectRatio := 0
  roiRequest := ⟨0, 0, 0, 0⟩
  quality := Quality.QualityDefault
  preferredPixelFormat := PixelFormat.Format_Invalid
  forcePreferredFormat := false
  brightness := 0
  contrast := 0
  hue := 0
  saturation := 0

/-- A backend whose every hook accepts the requested change. -/
def acceptAll : Backend where
  onSetPreferredPixelFormat := fun _ => true
  onSetQuality := fun _ => true
  onSetOrientation := fun _ => true
  onSetRegionOfInterest := fun _ => true
  onSetBrightness := fun _ => true
  onSetContrast := fun _ => true
  onSetHue := fun _ => true
  onSetSaturation := fun _ => true

/-- A backend whose every hook rejects the requested change. -/
def rejectAll : Backend where
  onSetPreferredPixelFormat := fun _ => false
  onSetQuality := fun _ => false
  onSetOrientation := fun _ => false
  onSetRegionOfInterest := fun _ => false
  onSetBrightness := fun _ => false
  onSetContrast := fun _ => false
  onSetHue := fun _ => false
  onSetSaturation := fun _ => false

/-- Spec §8 "fractional ROI" scenario: 1000×500 frame with the normalized
request `(0.25, 0, 0.5, 1.0)`. -/
def fracROIState : GeometryState :=
  { blankState with inSize := ⟨1000, 500⟩, roiRequest := ⟨1/4, 0, 1/2, 1⟩ }

/-- Spec §8 "zero-dimension ROI shorthand" scenario: 640×480 frame with the
request `(100, 50, 0, 0)`. -/
def zeroDimROIState : GeometryState :=
  { blankState with inSize := ⟨640, 480⟩, roiRequest := ⟨100, 50, 0, 0⟩ }

/-- A 640×480-frame state used to instantiate the ROI round trip. -/
def roiRoundState : GeometryState :=
  { blankState with inSize := ⟨640, 480⟩ }

/-- Spec §8 "letterbox" scenario: 800×600 surface, 1280×720 frame with
source aspect ratio 16:9, `VideoAspectRatio` mode. -/
def letterboxState : GeometryState :=
  { blankState with
    inSize := ⟨1280, 720⟩
    outSize := ⟨800, 600⟩
    sourceAspectRatio := 16/9 }

/-! ## Claim theorems -/

/-- The letterboxed rectangle of ratio `r` is the largest centered
rectangle of that ratio inside a positive `W × H` surface. -/
theorem fitRect_spec (W H r : ℚ) (hW : 0 < W) (hH : 0 < H) (hr : 0 < r) :
    rectInside (fitRect W H r) ⟨0, 0, W, H⟩ ∧
    (fitRect W H r).w = r * (fitRect W H r).h ∧
    centeredIn (fitRect W H r) ⟨0, 0, W, H⟩ ∧
    (∀ w2 h2 : ℚ, 0 ≤ w2 → 0 ≤ h2 → w2 = r * h2 → w2 ≤ W → h2 ≤ H →
      w2 ≤ (fitRect W H r).w ∧ h2 ≤ (fitRect W H r).h) := by
  unfold fitRect
  split_ifs with hfit
  · have hrH : 0 < r * H := mul_pos hr hH
    simp only [rectInside, centeredIn]
    refine ⟨⟨by linarith, hH.le, by linarith, by norm_num, by linarith,
      by linarith⟩, by trivial, ⟨by first | trivial | ring,
      by first | trivial | ring⟩, ?_⟩
    intro w2 h2 _ _ hwr hw2 hh2
    exact ⟨by rw [hwr]; exact mul_le_mul_of_nonneg_left hh2 hr.le, hh2⟩
  · have hlt : W < r * H := not_le.mp hfit
    have hdiv : W / r < H := (div_lt_iff₀ hr).mpr (by linarith)
    have hdiv0 : 0 < W / r := div_pos hW hr
    simp only [rectInside, centeredIn]
    refine ⟨⟨hW.le, hdiv0.le, by norm_num, by linarith, by linarith,
      by linarith⟩, ?_, ⟨by first | trivial | ring,
      by first | trivial | ring⟩, ?_⟩
    · field_simp
    · intro w2 h2 _ _ hwr hw2 hh2
      refine ⟨hw2, ?_⟩
      rw [le_div_iff₀ hr]
      have : h2 * r = w2 := by rw [hwr]; ring
      linarith

/-- C1: for each color-property setter, if the backend hook accepts the
value the stored value becomes that value and the setter reports success;
if the hook rejects it the state (hence the getter's value) is exactly as
before the call and the setter reports failure. -/
theorem C1_color_property_commit (b : Backend) (s : GeometryState) (v : ℚ) :
    (b.onSetBrightness v = true →
      setBrightness b s v = ({ s with brightness := v }, true)) ∧
    (b.onSetBrightness v = false → setBrightness b s v = (s, false)) ∧
    (b.onSetContrast v = true →
      setContrast b s v = ({ s with contrast := v }, true)) ∧
    (b.onSetContrast v = false → setContrast b s v = (s, false)) ∧
    (b.onSetHue v = true → setHue b s v = ({ s with hue := v }, true)) ∧
    (b.onSetHue v = false → setHue b s v = (s, false)) ∧
    (b.onSetSaturation v = true →
      setSaturation b s v = ({ s with saturation := v }, true)) ∧
    (b.onSetSaturation v = false → setSaturation b s v = (s, false)) := by
  refine ⟨?_, ?_, ?_, ?_, ?_, ?_, ?_, ?_⟩ <;> intro h <;>
    simp [setBrightness, setContrast, setHue, setSaturation, h]

/-- Witness for C1: an accepting backend commits a brightness of 1/2 and
reports success; a rejecting backend leaves the state intact and reports
failure. -/
theorem C1_color_property_commit_witness :
    setBrightness acceptAll blankState (1/2) =
      ({ blankState with brightness := 1/2 }, true) ∧
    setSaturation rejectAll blankState (1/2) = (blankState, false) :=
  ⟨(C1_color_property_commit acceptAll blankState (1/2)).1 rfl,
   (C1_color_property_commit rejectAll blankState (1/2)).2.2.2.2.2.2.2 rfl⟩

/-- C6 counterexample: the base-class default hook for the preferred pixel
format does not return `false` — the header documents its default as
`true` (VideoRenderer.h lines 204–206), refuting the claim that every
default hook in the pipeline returns `false`. -/
theorem C6_default_pixfmt_counterexample :
    defaultBackend.onSetPreferredPixelFormat PixelFormat.Format_RGB32 ≠
      false := by
  simp [defaultBackend]

/-- C6 (amended): the default hooks of the four color properties return
`false` for every value, so with no backend override no color setter ever
commits; the default `onSetPreferredPixelFormat`, however, returns `true`,
so `setPreferredPixelFormat` commits even without an override. -/
theorem C6_default_hooks (s : GeometryState) (v : ℚ) (f : PixelFormat) :
    defaultBackend.onSetBrightness v = false ∧
    defaultBackend.onSetContrast v = false ∧
    defaultBackend.onSetHue v = false ∧
    defaultBackend.onSetSaturation v = false ∧
    setBrightness defaultBackend s v = (s, false) ∧
    setContrast defaultBackend s v = (s, false) ∧
    setHue defaultBackend s v = (s, false) ∧
    setSaturation defaultBackend s v = (s, false) ∧
    defaultBackend.onSetPreferredPixelFormat f = true ∧
    setPreferredPixelFormat defaultBackend s f =
      ({ s with preferredPixelFormat := f }, true) := by
  simp [defaultBackend, setBrightness, setContrast, setHue, setSaturation,
    setPreferredPixelFormat]

/-- C7 counterexample: the header declares `setQuality`, `setOrientation`
and `setRegionOfInterest` with return type `void` (VideoRenderer.h lines
107, 124, 140–141), so none of them returns the boolean commit status the
claim describes. -/
theorem C7_void_return_counterexample :
    ¬(setQuality_declRet = CppRetTy.boolTy ∧
      setOrientation_declRet = CppRetTy.boolTy ∧
      setRegionOfInterest_declRet = CppRetTy.boolTy) := by
  simp [setQuality_declRet, setOrientation_declRet,
    setRegionOfInterest_declRet]

/-- C7 (amended): `setQuality`, `setOrientation` and `setRegionOfInterest`
follow the same conditional-commit-via-hook pattern as the color setters,
but they are declared `void` and so do not report the commit status to the
caller. -/
theorem C7_setters_commit_via_hook (b : Backend) (s : GeometryState)
    (q : Quality) (r : QRectF) (v : Int) :
    setQuality_declRet = CppRetTy.voidTy ∧
    setOrientation_declRet = CppRetTy.voidTy ∧
    setRegionOfInterest_declRet = CppRetTy.voidTy ∧
    (b.onSetQuality q = true → setQuality b s q = { s with quality := q }) ∧
    (b.onSetQuality q = false → setQuality b s q = s) ∧
    (b.onSetRegionOfInterest r = true →
      setRegionOfInterest b s r = { s with roiRequest := r }) ∧
    (b.onSetRegionOfInterest r = false → setRegionOfInterest b s r = s) ∧
    ((v = 0 ∨ v = 90 ∨ v = 180 ∨ v = 270) → b.onSetOrientation v = true →
      setOrientation b s v = { s with orientation := v }) ∧
    (b.onSetOrientation v = false → setOrientation b s v = s) := by
  refine ⟨rfl, rfl, rfl, ?_, ?_, ?_, ?_, ?_, ?_⟩
  · intro h; simp [setQuality, h]
  · intro h; simp [setQuality, h]
  · intro h; simp [setRegionOfInterest, h]
  · intro h; simp [setRegionOfInterest, h]
  · intro hv h; simp [setOrientation, hv, h]
  · intro h
    unfold setOrientation
    split_ifs with h1 h2
    · rw [h] at h2; exact absurd h2 (by simp)
    · rfl
    · rfl

/-- Witness for C7 (amended): with an accepting backend a quality change
commits; with a rejecting backend an ROI change is dropped. -/
theorem C7_setters_commit_via_hook_witness :
    setQuality acceptAll blankState Quality.QualityBest =
      { blankState with quality := Quality.QualityBest } ∧
    setRegionOfInterest rejectAll blankState ⟨1, 2, 3, 4⟩ = blankState :=
  ⟨(C7_setters_commit_via_hook acceptAll blankState Quality.QualityBest
      ⟨1, 2, 3, 4⟩ 0).2.2.2.1 rfl,
   (C7_setters_commit_via_hook rejectAll blankState Quality.QualityBest
      ⟨1, 2, 3, 4⟩ 0).2.2.2.2.2.2.1 rfl⟩

/-- C8: an orientation value outside {0, 90, 180, 270} is silently
ignored: the whole state — in particular the `orientation()` getter — is
unchanged, and this holds whatever the backend hook would answer. -/
theorem C8_invalid_orientation_ignored (b : Backend) (s : GeometryState)
    (v : Int) (h : ¬(v = 0 ∨ v = 90 ∨ v = 180 ∨ v = 270)) :
    setOrientation b s v = s ∧
    (setOrientation b s v).orientation = s.orientation := by
  have hs : setOrientation b s v = s := by simp [setOrientation, h]
  exact ⟨hs, by rw [hs]⟩

/-- Witness for C8: orientation 45 is ignored even by a backend that
accepts everything. -/
theorem C8_invalid_orientation_ignored_witness :
    ¬((45 : Int) = 0 ∨ (45 : Int) = 90 ∨ (45 : Int) = 180 ∨
      (45 : Int) = 270) ∧
    (setOrientation acceptAll blankState 45 = blankState ∧
     (setOrientation acceptAll blankState 45).orientation =
       blankState.orientation) :=
  ⟨by decide,
   C8_invalid_orientation_ignored acceptAll blankState 45 (by decide)⟩

/-- C2: the two resolution scenarios of the spec. On a 1000×500 frame the
request (0.25, 0, 0.5, 1.0) resolves to the pixel rect (250, 0, 500, 500)
— every component is normalized, the height hitting the `|h| = 1` boundary
with a normalized y. On a 640×480 frame the request (100, 50, 0, 0)
resolves to (100, 50, 540, 430) — absolute offsets with the zero-extent
"remainder of the frame" shorthand. -/
theorem C2_realROI_scenarios :
    realROI fracROIState = ⟨250, 0, 500, 500⟩ ∧
    realROI zeroDimROIState = ⟨100, 50, 540, 430⟩ := by
  constructor <;>
    norm_num [fracROIState, zeroDimROIState, blankState, realROI,
      resolveROI, roiXAbs, roiYAbs, roiWAbs, roiHAbs, roiWFull, roiHFull,
      clampTo, fullFrameRect, abs_lt, abs_eq]

/-- C9: with a degenerate (zero-dimension) frame size `realROI` returns
the whole-frame rectangle, and with a degenerate surface size `videoRect`
returns the whole surface rectangle; both resolvers are total functions —
neither result requires a division by the vanished dimension. -/
theorem C9_degenerate_identity (s : GeometryState) :
    ((s.inSize.w = 0 ∨ s.inSize.h = 0) → realROI s = fullFrameRect s) ∧
    ((s.outSize.w = 0 ∨ s.outSize.h = 0) → videoRect s = surfaceRect s) := by
  constructor
  · intro h
    unfold realROI
    rcases h with h | h <;> rw [if_pos] <;> simp [h]
  · intro h
    unfold videoRect
    rcases h with h | h <;> rw [if_pos] <;> simp [h]

/-- Witness for C9: the freshly constructed state has zero frame and
surface sizes, and both resolvers return the (empty) full rectangles. -/
theorem C9_degenerate_identity_witness :
    (blankState.inSize.w = 0 ∨ blankState.inSize.h = 0) ∧
    (blankState.outSize.w = 0 ∨ blankState.outSize.h = 0) ∧
    realROI blankState = fullFrameRect blankState ∧
    videoRect blankState = surfaceRect blankState :=
  ⟨Or.inl rfl, Or.inl rfl,
   (C9_degenerate_identity blankState).1 (Or.inl rfl),
   (C9_degenerate_identity blankState).2 (Or.inl rfl)⟩

/-- C10: the `|v| = 1` boundary of ROI resolution. A width of absolute
value exactly 1 is scaled by the frame width exactly when the x component
is itself normalized (`|x| < 1`), and is otherwise kept as an absolute
pixel value; the height behaves the same with respect to y. This is the
rule stated in the header's ROI doc comment (VideoRenderer.h line 134). -/
theorem C10_boundary_rule (W H : ℚ) (r : QRectF)
    (hw : |r.w| = 1) (hh : |r.h| = 1) :
    (|r.x| < 1 → roiWAbs W r = r.w * W) ∧
    (1 ≤ |r.x| → roiWAbs W r = r.w) ∧
    (|r.y| < 1 → roiHAbs H r = r.h * H) ∧
    (1 ≤ |r.y| → roiHAbs H r = r.h) := by
  refine ⟨?_, ?_, ?_, ?_⟩
  · intro hx
    unfold roiWAbs
    rw [if_pos (Or.inr ⟨hw, hx⟩)]
  · intro hx
    unfold roiWAbs
    rw [if_neg]
    rintro (h1 | ⟨_, h2⟩)
    · rw [hw] at h1; exact absurd h1 (by norm_num)
    · exact absurd h2 (not_lt.mpr hx)
  · intro hy
    unfold roiHAbs
    rw [if_pos (Or.inr ⟨hh, hy⟩)]
  · intro hy
    unfold roiHAbs
    rw [if_neg]
    rintro (h1 | ⟨_, h2⟩)
    · rw [hh] at h1; exact absurd h1 (by norm_num)
    · exact absurd h2 (not_lt.mpr hy)

/-- Witness for C10: on the request (1/2, 5, 1, -1) against a 100-wide,
50-high frame, the width 1 (with normalized x = 1/2) is scaled to the full
frame width, while the height -1 (with absolute y = 5) stays -1 pixels. -/
theorem C10_boundary_rule_witness :
    roiWAbs 100 ⟨1/2, 5, 1, -1⟩ = 1 * 100 ∧
    roiHAbs 50 ⟨1/2, 5, 1, -1⟩ = -1 :=
  ⟨(C10_boundary_rule 100 50 ⟨1/2, 5, 1, -1⟩ (by norm_num) (by norm_num)).1
      (by rw [abs_lt]; norm_num),
   (C10_boundary_rule 100 50 ⟨1/2, 5, 1, -1⟩ (by norm_num) (by norm_num)).2.2.2
      (by norm_num)⟩

/-- C3: with a valid surface, `RendererAspectRatio` mode makes the display
rectangle exactly the surface rectangle; in `VideoAspectRatio` and
`CustomAspectRation` modes (with a positive effective ratio — the source
or custom ratio, reciprocal-adjusted for orientations 90/270 inside
`effectiveRatio`) the display rectangle is contained in the surface, has
exactly the effective ratio, is centered, and is the largest such
rectangle. -/
theorem C3_videoRect_aspect (s : GeometryState)
    (hW : 0 < s.outSize.w) (hH : 0 < s.outSize.h) :
    (s.aspectRatioMode = OutAspectRatioMode.RendererAspectRatio →
      videoRect s = surfaceRect s) ∧
    ((s.aspectRatioMode = OutAspectRatioMode.VideoAspectRatio ∨
      s.aspectRatioMode = OutAspectRatioMode.CustomAspectRation) →
      0 < effectiveRatio s →
      rectInside (videoRect s) (surfaceRect s) ∧
      (videoRect s).w = effectiveRatio s * (videoRect s).h ∧
      centeredIn (videoRect s) (surfaceRect s) ∧
      (∀ w2 h2 : ℚ, 0 ≤ w2 → 0 ≤ h2 → w2 = effectiveRatio s * h2 →
        w2 ≤ (s.outSize.w : ℚ) → h2 ≤ (s.outSize.h : ℚ) →
        w2 ≤ (videoRect s).w ∧ h2 ≤ (videoRect s).h)) := by
  have hno : ¬(s.outSize.w ≤ 0 ∨ s.outSize.h ≤ 0) := by
    push_neg
    exact ⟨hW, hH⟩
  constructor
  · intro hm
    unfold videoRect
    rw [if_neg hno, hm]
  · intro hm hr
    have hW2 : (0 : ℚ) < (s.outSize.w : ℚ) := by exact_mod_cast hW
    have hH2 : (0 : ℚ) < (s.outSize.h : ℚ) := by exact_mod_cast hH
    have hvr : videoRect s =
        fitRect (s.outSize.w : ℚ) (s.outSize.h : ℚ) (effectiveRatio s) := by
      unfold videoRect
      rw [if_neg hno]
      rcases hm with h | h <;> simp only [h] <;>
        rw [if_neg (not_le.mpr hr)]
    have hs : surfaceRect s =
        ⟨0, 0, (s.outSize.w : ℚ), (s.outSize.h : ℚ)⟩ := rfl
    rw [hvr, hs]
    exact fitRect_spec _ _ _ hW2 hH2 hr

/-- Witness for C3: the letterbox scenario of spec §8 — 800×600 surface,
16:9 source, `VideoAspectRatio` mode. -/
theorem C3_videoRect_aspect_witness :
    rectInside (videoRect letterboxState) (surfaceRect letterboxState) ∧
    (videoRect letterboxState).w =
      effectiveRatio letterboxState * (videoRect letterboxState).h ∧
    centeredIn (videoRect letterboxState) (surfaceRect letterboxState) ∧
    (∀ w2 h2 : ℚ, 0 ≤ w2 → 0 ≤ h2 →
      w2 = effectiveRatio letterboxState * h2 →
      w2 ≤ (letterboxState.outSize.w : ℚ) →
      h2 ≤ (letterboxState.outSize.h : ℚ) →
      w2 ≤ (videoRect letterboxState).w ∧
      h2 ≤ (videoRect letterboxState).h) :=
  (C3_videoRect_aspect letterboxState (by decide) (by decide)).2
    (Or.inl rfl)
    (by norm_num [effectiveRatio, nominalRatio, letterboxState, blankState])

/-- Rotating forward undoes rotating backward about the same center, for
every orientation value. -/
theorem rotPos_rotNeg (o : Int) (c q : QPointF) :
    rotPos o c (rotNeg o c q) = q := by
  obtain ⟨qx, qy⟩ := q
  unfold rotNeg rotPos
  split_ifs <;> simp only [QPointF.mk.injEq] <;> constructor <;> ring

/-- C4: for a state whose display rectangle and resolved ROI are
non-degenerate, `mapFromFrame` inverts `mapToFrame` exactly, for every
point inside the display rectangle and every orientation in
{0, 90, 180, 270}. -/
theorem C4_map_round_trip (s : GeometryState) (p : QPointF)
    (_ho : s.orientation = 0 ∨ s.orientation = 90 ∨ s.orientation = 180 ∨
      s.orientation = 270)
    (hdw : (videoRect s).w ≠ 0) (hdh : (videoRect s).h ≠ 0)
    (hrw : (realROI s).w ≠ 0) (hrh : (realROI s).h ≠ 0)
    (hp : insideRect p (videoRect s)) :
    mapFromFrame s (mapToFrame s p) = p := by
  obtain ⟨px, py⟩ := p
  unfold mapFromFrame mapToFrame
  rw [rotPos_rotNeg]
  simp only [QPointF.mk.injEq]
  constructor <;> field_simp <;> ring

/-- Witness for C4: the letterbox state rotated by 90°, with the point
(300, 300): it lies inside the display rectangle (231.25, 0, 337.5, 600)
and maps back to itself. -/
theorem C4_map_round_trip_witness :
    mapFromFrame { letterboxState with orientation := 90 }
      (mapToFrame { letterboxState with orientation := 90 } ⟨300, 300⟩) =
      ⟨300, 300⟩ :=
  C4_map_round_trip { letterboxState with orientation := 90 } ⟨300, 300⟩
    (by norm_num [letterboxState, blankState])
    (by norm_num [videoRect, surfaceRect, fitRect, effectiveRatio,
      nominalRatio, letterboxState, blankState])
    (by norm_num [videoRect, surfaceRect, fitRect, effectiveRatio,
      nominalRatio, letterboxState, blankState])
    (by norm_num [realROI, resolveROI, roiXAbs, roiYAbs, roiWAbs, roiHAbs,
      roiWFull, roiHFull, clampTo, fullFrameRect, letterboxState,
      blankState, abs_lt, abs_eq])
    (by norm_num [realROI, resolveROI, roiXAbs, roiYAbs, roiWAbs, roiHAbs,
      roiWFull, roiHFull, clampTo, fullFrameRect, letterboxState,
      blankState, abs_lt, abs_eq])
    (by norm_num [insideRect, videoRect, surfaceRect, fitRect,
      effectiveRatio, nominalRatio, letterboxState, blankState])

/-- `realROI` with a valid frame size is the resolution of the raw
request. -/
theorem realROI_eq_resolve (s : GeometryState)
    (h : ¬(s.inSize.w ≤ 0 ∨ s.inSize.h ≤ 0)) :
    realROI s = resolveROI (s.inSize.w : ℚ) (s.inSize.h : ℚ) s.roiRequest := by
  unfold realROI
  rw [if_neg h]

/-- Resolving the normalization of a pixel rectangle strictly inside the
frame reproduces that rectangle exactly. -/
theorem resolveROI_round (W H : ℚ) (R : QRectF) (hW : 0 < W) (hH : 0 < H)
    (hx : 0 ≤ R.x) (hy : 0 ≤ R.y) (hw : 0 < R.w) (hh : 0 < R.h)
    (hxw : R.x + R.w ≤ W) (hyh : R.y + R.h ≤ H) :
    resolveROI W H (normalizedROIOf W H R) = R := by
  have hWne : W ≠ 0 := hW.ne'
  have hHne : H ≠ 0 := hH.ne'
  have hxW : R.x < W := by linarith
  have hyH : R.y < H := by linarith
  have hwW : R.w ≤ W := by linarith
  have hhH : R.h ≤ H := by linarith
  have enx : (normalizedROIOf W H R).x = R.x / W := rfl
  have eny : (normalizedROIOf W H R).y = R.y / H := rfl
  have enw : (normalizedROIOf W H R).w = R.w / W := rfl
  have enh : (normalizedROIOf W H R).h = R.h / H := rfl
  have hnxabs : |R.x / W| < 1 :=
    abs_lt.mpr ⟨by have := div_nonneg hx hW.le; linarith,
      (div_lt_one hW).mpr hxW⟩
  have hnyabs : |R.y / H| < 1 :=
    abs_lt.mpr ⟨by have := div_nonneg hy hH.le; linarith,
      (div_lt_one hH).mpr hyH⟩
  have hnw0 : 0 < R.w / W := div_pos hw hW
  have hnh0 : 0 < R.h / H := div_pos hh hH
  have hnw1 : R.w / W ≤ 1 := (div_le_one hW).mpr hwW
  have hnh1 : R.h / H ≤ 1 := (div_le_one hH).mpr hhH
  have ex : roiXAbs W (normalizedROIOf W H R) = R.x := by
    unfold roiXAbs
    rw [enx, if_pos hnxabs]
    exact div_mul_cancel₀ R.x hWne
  have ey : roiYAbs H (normalizedROIOf W H R) = R.y := by
    unfold roiYAbs
    rw [eny, if_pos hnyabs]
    exact div_mul_cancel₀ R.y hHne
  have ew : roiWAbs W (normalizedROIOf W H R) = R.w := by
    unfold roiWAbs
    rw [enw, enx]
    have hcond : |R.w / W| < 1 ∨ (|R.w / W| = 1 ∧ |R.x / W| < 1) := by
      rcases lt_or_eq_of_le hnw1 with hlt | heq
      · exact Or.inl (by rw [abs_of_nonneg hnw0.le]; exact hlt)
      · exact Or.inr ⟨by rw [abs_of_nonneg hnw0.le, heq], hnxabs⟩
    rw [if_pos hcond]
    exact div_mul_cancel₀ R.w hWne
  have eh : roiHAbs H (normalizedROIOf W H R) = R.h := by
    unfold roiHAbs
    rw [enh, eny]
    have hcond : |R.h / H| < 1 ∨ (|R.h / H| = 1 ∧ |R.y / H| < 1) := by
      rcases lt_or_eq_of_le hnh1 with hlt | heq
      · exact Or.inl (by rw [abs_of_nonneg hnh0.le]; exact hlt)
      · exact Or.inr ⟨by rw [abs_of_nonneg hnh0.le, heq], hnyabs⟩
    rw [if_pos hcond]
    exact div_mul_cancel₀ R.h hHne
  have ewf : roiWFull W (normalizedROIOf W H R) = R.w := by
    unfold roiWFull
    rw [ew, if_neg hw.ne']
  have ehf : roiHFull H (normalizedROIOf W H R) = R.h := by
    unfold roiHFull
    rw [eh, if_neg hh.ne']
  unfold resolveROI
  rw [if_neg (by rw [enw]; exact fun hc => absurd hc.2.2.1 hnw0.ne')]
  rw [ex, ey, ewf, ehf]
  unfold clampTo
  rw [min_eq_left hxW.le, max_eq_right hx, min_eq_left hyH.le,
    max_eq_right hy, min_eq_left hxw, max_eq_right (by linarith),
    min_eq_left hyh, max_eq_right (by linarith)]
  conv_rhs => rw [show R = ⟨R.x, R.y, R.w, R.h⟩ from rfl]
  simp only [QRectF.mk.injEq]
  refine ⟨trivial, trivial, by ring, by ring⟩

/-- C5: setting the ROI to the normalized form of a pixel rectangle R that
lies inside the frame (through a backend that accepts the request) and
resolving it back reproduces R — exactly, since the arithmetic is
rational. -/
theorem C5_roi_round_trip (b : Backend) (s : GeometryState) (R : QRectF)
    (hacc : b.onSetRegionOfInterest
      (normalizedROIOf (s.inSize.w : ℚ) (s.inSize.h : ℚ) R) = true)
    (hW : 0 < s.inSize.w) (hH : 0 < s.inSize.h)
    (hx : 0 ≤ R.x) (hy : 0 ≤ R.y) (hw : 0 < R.w) (hh : 0 < R.h)
    (hxw : R.x + R.w ≤ (s.inSize.w : ℚ))
    (hyh : R.y + R.h ≤ (s.inSize.h : ℚ)) :
    realROI (setRegionOfInterest b s
      (normalizedROIOf (s.inSize.w : ℚ) (s.inSize.h : ℚ) R)) = R := by
  have hstate : setRegionOfInterest b s
      (normalizedROIOf (s.inSize.w : ℚ) (s.inSize.h : ℚ) R) =
      { s with roiRequest :=
        normalizedROIOf (s.inSize.w : ℚ) (s.inSize.h : ℚ) R } := by
    simp [setRegionOfInterest, hacc]
  rw [hstate, realROI_eq_resolve]
  · exact resolveROI_round _ _ R (by exact_mod_cast hW) (by exact_mod_cast hH)
      hx hy hw hh hxw hyh
  · push_neg
    exact ⟨hW, hH⟩

/-- Witness for C5: the pixel rect (10, 20, 100, 200) inside a 640×480
frame survives the normalize–store–resolve round trip. -/
theorem C5_roi_round_trip_witness :
    realROI (setRegionOfInterest acceptAll roiRoundState
      (normalizedROIOf (roiRoundState.inSize.w : ℚ)
        (roiRoundState.inSize.h : ℚ) ⟨10, 20, 100, 200⟩)) =
      ⟨10, 20, 100, 200⟩ :=
  C5_roi_round_trip acceptAll roiRoundState ⟨10, 20, 100, 200⟩ rfl
    (by decide) (by decide) (by norm_num) (by norm_num) (by norm_num)
    (by norm_num) (by norm_num [roiRoundState, blankState])
    (by norm_num [roiRoundState, blankState])

end QtAVVR
